import Mathlib

/-!
Verification development for the SBOM-Converter repository.

This file gives a shallow embedding of the two streaming SBOM converters
(CycloneDX to SPDX and SPDX to CycloneDX) and of the field-level adapters
they use, translated from the Rust sources:

  src/converter_cdx_to_spdx.rs  (single-pass CDX to SPDX pipeline)
  src/converter_spdx_to_cdx.rs  (three-pass SPDX to CDX pipeline)
  src/models_spdx.rs            (SPDX record shapes and adapters)
  src/models_cdx.rs             (CDX record shapes)
  src/lib.rs                    (run: file handling around the converters)

Streaming visitors are modelled as pure functions from the decoded record
stream (a list of top-level key/value entries) to the list of records each
writer receives, in emission order.  The 64-bit hasher used for JSON-LD
identifiers (std DefaultHasher, i.e. SipHash-1-3 with zero keys over the
UTF-8 bytes of the string followed by a 0xff terminator byte) is embedded
over Nat with explicit reduction modulo 2 ^ 64.
-/

set_option maxRecDepth 4000

/-! ## 64-bit arithmetic helpers (u64 as Nat, reduced mod 2 ^ 64) -/

def M64 : Nat := 2 ^ 64

def add64 (a b : Nat) : Nat := (a + b) % M64

def xor64 (a b : Nat) : Nat := (a ^^^ b) % M64

/-- Rotation of a u64 left by n bits (0 < n < 64), for values below 2 ^ 64. -/
def rotl64 (x n : Nat) : Nat := ((x <<< n) + (x >>> (64 - n))) % M64

/-! ## SipHash-1-3 (std::collections::hash_map::DefaultHasher with zero keys) -/

structure SipState where
  v0 : Nat
  v1 : Nat
  v2 : Nat
  v3 : Nat

/-- One SipHash round (the SIPROUND permutation used by std SipHasher13). -/
def sipRound (s : SipState) : SipState :=
  let v0 := add64 s.v0 s.v1
  let v1 := rotl64 s.v1 13
  let v1 := xor64 v1 v0
  let v0 := rotl64 v0 32
  let v2 := add64 s.v2 s.v3
  let v3 := rotl64 s.v3 16
  let v3 := xor64 v3 v2
  let v0 := add64 v0 v3
  let v3 := rotl64 v3 21
  let v3 := xor64 v3 v0
  let v2 := add64 v2 v1
  let v1 := rotl64 v1 17
  let v1 := xor64 v1 v2
  let v2 := rotl64 v2 32
  ⟨v0, v1, v2, v3⟩

/-- Compression of one 8-byte message word: c = 1 round for SipHash-1-3. -/
def sipCompress (st : SipState) (m : Nat) : SipState :=
  let m := m % M64
  let st := { st with v3 := xor64 st.v3 m }
  let st := sipRound st
  { st with v0 := xor64 st.v0 m }

/-- Little-endian packing of a byte list into a machine word. -/
def leWord (l : List Nat) : Nat := l.foldr (fun b acc => b + 256 * acc) 0

/-- Process the message in 8-byte chunks, then the final length-tagged word
and the d = 3 finalization rounds of SipHash-1-3. -/
def sipGo (st : SipState) (len : Nat) : List Nat → SipState
  | b0 :: b1 :: b2 :: b3 :: b4 :: b5 :: b6 :: b7 :: rest =>
    sipGo (sipCompress st (leWord [b0, b1, b2, b3, b4, b5, b6, b7])) len rest
  | rest =>
    let b := (len % 256) * 2 ^ 56 + leWord rest
    let st := sipCompress st b
    let st := { st with v2 := xor64 st.v2 0xff }
    sipRound (sipRound (sipRound st))

/-- SipHash-1-3 with keys k0 = k1 = 0 over a byte list: the value returned by
DefaultHasher::finish after writing these bytes. -/
def sipHash13 (msg : List Nat) : Nat :=
  let st0 : SipState :=
    ⟨0x736f6d6570736575, 0x646f72616e646f6d, 0x6c7967656e657261, 0x7465646279746573⟩
  let st := sipGo st0 msg.length msg
  xor64 (xor64 (xor64 st.v0 st.v1) st.v2) st.v3

/-- UTF-8 encoding of one character as bytes. -/
def charUtf8 (c : Char) : List Nat :=
  let n := c.toNat
  if n < 0x80 then [n]
  else if n < 0x800 then [0xC0 + n / 64, 0x80 + n % 64]
  else if n < 0x10000 then [0xE0 + n / 4096, 0x80 + (n / 64) % 64, 0x80 + n % 64]
  else [0xF0 + n / 262144, 0x80 + (n / 4096) % 64, 0x80 + (n / 64) % 64, 0x80 + n % 64]

/-- UTF-8 bytes of a string (as Rust str::as_bytes). -/
def utf8Bytes (s : String) : List Nat := s.data.foldr (fun c acc => charUtf8 c ++ acc) []

/-- The u64 that spdx_id.hash(&mut DefaultHasher::new()) / .finish() produces:
Hash for str writes the UTF-8 bytes followed by a 0xff terminator byte. -/
def defaultHashStr (s : String) : Nat := sipHash13 (utf8Bytes s ++ [0xff])

/-! ## Lowercase hex rendering (Rust format string x lower-hex for u64) -/

def hexDigitChar (n : Nat) : Char :=
  if n < 10 then Char.ofNat (48 + n) else Char.ofNat (87 + n)

/-- Hex digit accumulator; the fuel bounds the digit count (16 suffices for
every u64, and every value rendered here is reduced mod 2 ^ 64). -/
def natToHexAux : Nat → Nat → List Char → List Char
  | 0, _, acc => acc
  | fuel + 1, n, acc =>
    if n = 0 then acc else natToHexAux fuel (n / 16) (hexDigitChar (n % 16) :: acc)

/-- Lowercase hex of a u64 with no zero padding, as Rust lower-hex formatting
of a u64: the empty value renders as the single digit 0. -/
def natToHex (n : Nat) : String :=
  if n = 0 then "0" else String.mk (natToHexAux 16 n [])

/-! ## Character-list string helpers (kernel-friendly models of the string
operations the Rust code uses) -/

/-- Whether p is an initial run of l (Rust str::starts_with). -/
def hasInitial : List Char → List Char → Bool
  | [], _ => true
  | _ :: _, [] => false
  | p :: ps, c :: cs => p = c && hasInitial ps cs

/-- Rust str::strip_prefix composed with unwrap_or(original): drop the given
initial run when present, otherwise return the input unchanged. -/
def stripInitial (p l : List Char) : List Char :=
  if hasInitial p l then l.drop p.length else l

/-- Split on a separator character; mirrors Rust str::split semantics
(n separators produce n + 1 pieces, possibly empty). -/
def splitChar (sep : Char) : List Char → List (List Char)
  | [] => [[]]
  | c :: rest =>
    let r := splitChar sep rest
    if c = sep then [] :: r
    else
      match r with
      | [] => [[c]]
      | h :: t => (c :: h) :: t

/-- Index of the first occurrence of the pattern seq inside l, if any. -/
def idxOfSeq (sep : List Char) : List Char → Option Nat
  | [] => if sep.isEmpty then some 0 else none
  | c :: rest =>
    if hasInitial sep (c :: rest) then some 0 else (idxOfSeq sep rest).map (· + 1)

/-- The second piece of Rust str::split over a multi-character separator
(split(sep).nth(1)): the text between the first occurrence of sep and the
next occurrence or the end; none when sep does not occur. -/
def splitNth1 (sep l : List Char) : Option (List Char) :=
  match idxOfSeq sep l with
  | none => none
  | some i =>
    let tail := l.drop (i + sep.length)
    match idxOfSeq sep tail with
    | none => some tail
    | some j => some (tail.take j)

/-! ## CycloneDX record shapes (src/models_cdx.rs, with the component and
vulnerability fields the converters in src read and construct) -/

structure CdxHash where
  alg : String
  content : String
deriving DecidableEq

structure CdxLicense where
  id : Option String
  name : Option String
deriving DecidableEq

structure CdxLicenseChoice where
  expression : Option String
  license : Option CdxLicense
deriving DecidableEq

structure CdxComponent where
  bom_ref : String
  component_type : String
  name : String
  version : Option String
  purl : Option String
  cpe : Option String
  description : Option String
  hashes : Option (List CdxHash)
  scope : Option String
  licenses : Option (List CdxLicenseChoice)
deriving DecidableEq

structure CdxDependency where
  dep_ref : String
  depends_on : List String
deriving DecidableEq

structure CdxAffects where
  bom_ref : String
deriving DecidableEq

structure CdxVulnSource where
  name : String
  url : Option String
deriving DecidableEq

structure CdxAnalysis where
  state : String
  detail : Option String
  first_issued : Option String
  last_updated : Option String
deriving DecidableEq

structure CdxVulnerability where
  id : String
  source : Option CdxVulnSource
  description : Option String
  analysis : Option CdxAnalysis
  affects : Option (List CdxAffects)
deriving DecidableEq

/-! ## SPDX record shapes (src/models_spdx.rs) -/

structure SpdxExternalIdentifier where
  id_type : String
  external_identifier_type : Option String
  identifier : Option String
deriving DecidableEq

structure SpdxHash where
  hash_type : String
  algorithm : Option String
  hash_value : Option String
deriving DecidableEq

/-- Output shape written for each converted component (SpdxPackage). -/
structure SpdxPackage where
  spdx_id : String
  element_type : String
  name : String
  version_info : Option String
  summary : Option String
  purl : Option String
  license_concluded : Option String
  external_identifier : Option (List SpdxExternalIdentifier)
  verified_using : Option (List SpdxHash)
  software_primary_purpose : Option String
deriving DecidableEq

/-- Output shape written for each converted vulnerability (SpdxElement). -/
structure SpdxElement where
  spdx_id : String
  element_type : String
  name : String
  version_info : Option String
  purl : Option String
  license_concluded : Option String
deriving DecidableEq

inductive RelationshipType where
  | DependsOn
  | Affects
deriving DecidableEq

/-- The wire spelling serde emits for RelationshipType
(SCREAMING_SNAKE_CASE rename). -/
def RelationshipType.wireName : RelationshipType → String
  | .DependsOn => "DEPENDS_ON"
  | .Affects => "AFFECTS"

structure SpdxRelationship where
  spdx_element_id : String
  relationship_type : RelationshipType
  related_spdx_element : String
deriving DecidableEq

/-- Minimal relationship record indexed by Pass 1 of the SPDX to CDX pipe. -/
structure SpdxRelationshipMinimal where
  spdx_element_id : String
  relationship_type : String
  related_spdx_element : String
deriving DecidableEq

/-- Minimal element record streamed by Pass 2 (simple JSON shape). -/
structure SpdxElementMinimal where
  spdx_id : String
  element_type : String
  name : Option String
  version_info : Option String
  summary : Option String
  purl : Option String
  license_concluded : Option String
  external_identifier : Option (List SpdxExternalIdentifier)
  verified_using : Option (List SpdxHash)
  software_primary_purpose : Option String
deriving DecidableEq

/-- JSON-LD element record (software_Package / software_File entries). -/
structure JsonLdElement where
  element_type : String
  spdx_id : String
  name : Option String
  software_package_version : Option String
  description : Option String
  summary : Option String
  software_primary_purpose : Option String
  external_identifier : Option (List SpdxExternalIdentifier)
  verified_using : Option (List SpdxHash)
deriving DecidableEq

/-- JSON-LD relationship record (type Relationship or
LifecycleScopedRelationship inside the graph array). -/
structure JsonLdRelationship where
  relationship_type_name : String
  spdx_id : Option String
  from_id : String
  relationship_type : String
  to_ids : List String
deriving DecidableEq

/-- JSON-LD vulnerability record (type security_Vulnerability). -/
structure JsonLdVulnerability where
  vuln_type : String
  spdx_id : String
  external_identifier : Option (List SpdxExternalIdentifier)
deriving DecidableEq

/-- JSON-LD VEX assessment relationship (type starting security_Vex). -/
structure JsonLdVexRelationship where
  relationship_type : String
  spdx_id : String
  from_id : String
  relationship_type_enum : String
  to_ids : List String
  security_impact_statement : Option String
  security_vex_version : Option String
deriving DecidableEq

/-! ## Field adapters (src/models_spdx.rs) -/

/-- ASCII lowercasing over the character data (Rust str::to_lowercase on the
ASCII algorithm spellings used here). -/
def strLower (s : String) : String := String.mk (s.data.map Char.toLower)

/-- ASCII uppercasing over the character data (Rust str::to_uppercase on the
ASCII algorithm spellings used here). -/
def strUpper (s : String) : String := String.mk (s.data.map Char.toUpper)

/-- The per-hash algorithm conversion inside SpdxPackage::from_cdx_component
(models_spdx.rs line 377): Rust to_lowercase on the CDX spelling. -/
def cdxAlgToSpdx (alg : String) : String := strLower alg

/-- The per-hash algorithm conversion inside extract_hashes
(models_spdx.rs lines 91 to 95): uppercase, then the SHA256 / SHA1 table. -/
def spdxAlgToCdx (alg : String) : String :=
  match strUpper alg with
  | "SHA256" => "SHA-256"
  | "SHA1" => "SHA-1"
  | other => other

/-- SpdxPackage::from_cdx_component (models_spdx.rs lines 361 to 413). -/
def SpdxPackage.from_cdx_component (comp : CdxComponent) : SpdxPackage :=
  let external_identifier := comp.cpe.map fun cpe =>
    [{ id_type := "ExternalIdentifier"
       external_identifier_type := some "cpe23Type"
       identifier := some cpe : SpdxExternalIdentifier }]
  let verified_using := comp.hashes.map fun hashes =>
    hashes.map fun h =>
      { hash_type := "Hash"
        algorithm := some (cdxAlgToSpdx h.alg)
        hash_value := some h.content : SpdxHash }
  let software_primary_purpose := comp.scope.map fun scope =>
    match scope with
    | "required" => "install"
    | "optional" => "optional"
    | _ => "other"
  { spdx_id := "SPDXRef-" ++ comp.bom_ref
    element_type := if comp.component_type = "file" then "SpdxFile" else "SpdxPackage"
    name := comp.name
    version_info := comp.version
    summary := comp.description
    purl := comp.purl
    license_concluded :=
      (comp.licenses.bind fun lics => lics.head?).bind fun l => l.expression
    external_identifier := external_identifier
    verified_using := verified_using
    software_primary_purpose := software_primary_purpose }

/-- SpdxElementMinimal::extract_hashes (models_spdx.rs lines 83 to 105). -/
def SpdxElementMinimal.extract_hashes (e : SpdxElementMinimal) : Option (List CdxHash) :=
  e.verified_using.bind fun verified =>
    let hashes := verified.filterMap fun h =>
      h.algorithm.bind fun alg =>
        h.hash_value.map fun content =>
          { alg := spdxAlgToCdx alg, content := content : CdxHash }
    if hashes.isEmpty then none else some hashes

/-- SpdxElementMinimal::map_scope (models_spdx.rs lines 108 to 114). -/
def SpdxElementMinimal.map_scope (e : SpdxElementMinimal) : Option String :=
  match e.software_primary_purpose with
  | some "install" => some "required"
  | some "source" => some "excluded"
  | some "build" => some "excluded"
  | _ => none

/-- JsonLdElement::extract_cpe (models_spdx.rs lines 245 to 251). -/
def JsonLdElement.extract_cpe (e : JsonLdElement) : Option String :=
  (e.external_identifier.bind fun ids =>
    ids.find? fun id => id.external_identifier_type = some "cpe23").bind
    fun id => id.identifier

/-- JsonLdElement::extract_purl (models_spdx.rs lines 254 to 260). -/
def JsonLdElement.extract_purl (e : JsonLdElement) : Option String :=
  (e.external_identifier.bind fun ids =>
    ids.find? fun id => id.external_identifier_type = some "purl").bind
    fun id => id.identifier

/-- JsonLdElement::extract_hashes (models_spdx.rs lines 263 to 285):
identical algorithm table to SpdxElementMinimal::extract_hashes. -/
def JsonLdElement.extract_hashes (e : JsonLdElement) : Option (List CdxHash) :=
  e.verified_using.bind fun verified =>
    let hashes := verified.filterMap fun h =>
      h.algorithm.bind fun alg =>
        h.hash_value.map fun content =>
          { alg := spdxAlgToCdx alg, content := content : CdxHash }
    if hashes.isEmpty then none else some hashes

/-- JsonLdElement::map_scope (models_spdx.rs lines 288 to 294). -/
def JsonLdElement.map_scope (e : JsonLdElement) : Option String :=
  match e.software_primary_purpose with
  | some "install" => some "required"
  | some "source" => some "excluded"
  | some "build" => some "excluded"
  | _ => none

/-- JsonLdVulnerability::extract_cve_id (models_spdx.rs lines 177 to 193):
prefer the cve external identifier, else the second piece of splitting the
spdxId on the /vulnerability/ marker. -/
def JsonLdVulnerability.extract_cve_id (v : JsonLdVulnerability) : Option String :=
  match v.external_identifier.bind fun ids =>
      (ids.find? fun id => id.external_identifier_type = some "cve").bind
        fun id => id.identifier with
  | some cve => some cve
  | none => (splitNth1 "/vulnerability/".data v.spdx_id.data).map String.mk

/-- JsonLdVexRelationship::map_state (models_spdx.rs lines 216 to 223). -/
def JsonLdVexRelationship.map_state (x : JsonLdVexRelationship) : String :=
  match x.relationship_type with
  | "security_VexNotAffectedVulnAssessmentRelationship" => "not_affected"
  | "security_VexFixedVulnAssessmentRelationship" => "resolved"
  | _ => "in_triage"

/-! ## Identifier adapter (src/converter_spdx_to_cdx.rs lines 411 to 438) -/

/-- The name-part selection inside extract_bom_ref (lines 424 to 429): the
final path segment when it is non-empty and contains an alphabetic
character, else the literal element. -/
def uriNamePart (spdx_id : String) : List Char :=
  let lastSeg := (splitChar '/' spdx_id.data).getLastD []
  if !lastSeg.isEmpty && lastSeg.any Char.isAlpha then lastSeg else "element".data

/-- extract_bom_ref: JSON-LD URIs become name-part plus lowercase hex of the
DefaultHasher value of the full URI; other ids are returned with a leading
SPDXRef- marker removed. -/
def extract_bom_ref (spdx_id : String) : String :=
  if hasInitial "http://".data spdx_id.data || hasInitial "https://".data spdx_id.data then
    String.mk (uriNamePart spdx_id) ++ "-" ++ natToHex (defaultHashStr spdx_id)
  else
    String.mk (stripInitial "SPDXRef-".data spdx_id.data)

/-! ## CDX to SPDX handlers (src/converter_cdx_to_spdx.rs) -/

/-- handle_cdx_component (lines 308 to 323): the element record written to
the main output for one CDX component. -/
def handle_cdx_component (component : CdxComponent) : SpdxPackage :=
  SpdxPackage.from_cdx_component component

/-- handle_cdx_dependency (lines 326 to 341): the relationship records
appended to the side file, one per dependsOn target, in input order. -/
def handle_cdx_dependency (dep : CdxDependency) : List SpdxRelationship :=
  let rec go : List String → List SpdxRelationship
    | [] => []
    | target :: rest =>
      { spdx_element_id := "SPDXRef-" ++ dep.dep_ref
        relationship_type := RelationshipType.DependsOn
        related_spdx_element := "SPDXRef-" ++ target } :: go rest
  go dep.depends_on

/-- handle_cdx_vulnerability (lines 344 to 384): the element written to the
main output and the AFFECTS relationships appended to the side file. -/
def handle_cdx_vulnerability (vuln : CdxVulnerability) :
    SpdxElement × List SpdxRelationship :=
  let vuln_spdx_id := "SPDXRef-Vulnerability-" ++ vuln.id
  let element : SpdxElement :=
    { spdx_id := vuln_spdx_id
      element_type := "SpdxVulnerability"
      name := vuln.id
      version_info := none
      purl := none
      license_concluded := none }
  let rels :=
    match vuln.affects with
    | none => []
    | some affects =>
      affects.map fun affected =>
        { spdx_element_id := vuln_spdx_id
          relationship_type := RelationshipType.Affects
          related_spdx_element := "SPDXRef-" ++ affected.bom_ref : SpdxRelationship }
  (element, rels)

/-! ## CDX to SPDX top-level visitor (CdxVisitor::visit_map,
converter_cdx_to_spdx.rs lines 140 to 181): the root object is a stream of
keyed entries, dispatched in input order; unknown keys are skipped. -/

/-- One record written to the elements array of the SPDX output: either a
package (from components) or a generic element (from vulnerabilities). -/
inductive SpdxOutItem where
  | pkg (p : SpdxPackage)
  | elem (e : SpdxElement)
deriving DecidableEq

/-- A decoded top-level entry of the CDX input object. -/
inductive CdxTopEntry where
  | components (cs : List CdxComponent)
  | dependencies (ds : List CdxDependency)
  | vulnerabilities (vs : List CdxVulnerability)
  | otherKey (key : String)
deriving DecidableEq

/-- The streamed CDX to SPDX conversion: returns the records written to the
main elements array and to the relationship side file, in emission order. -/
def cdxVisitMap : List CdxTopEntry → List SpdxOutItem × List SpdxRelationship
  | [] => ([], [])
  | entry :: rest =>
    let tail := cdxVisitMap rest
    match entry with
    | .components cs =>
      (cs.map (fun c => SpdxOutItem.pkg (handle_cdx_component c)) ++ tail.1, tail.2)
    | .dependencies ds =>
      (tail.1, (ds.map handle_cdx_dependency).flatten ++ tail.2)
    | .vulnerabilities vs =>
      ((vs.map fun v => SpdxOutItem.elem (handle_cdx_vulnerability v).1) ++ tail.1,
        (vs.map fun v => (handle_cdx_vulnerability v).2).flatten ++ tail.2)
    | .otherKey _ => tail

/-! ## SPDX to CDX handlers (src/converter_spdx_to_cdx.rs) -/

/-- The scope closure inside handle_spdx_element (lines 351 to 360): the
simple-JSON path of the purpose to scope table. -/
def simpleScopeOf (purpose : String) : String :=
  match purpose with
  | "install" => "required"
  | "optional" => "optional"
  | _ => "required"

/-- handle_spdx_element (lines 308 to 409): the component written to the
components array for one simple-JSON element, or none when the element is a
vulnerability (skipped with a warning) or of any other type. -/
def handle_spdx_element (element : SpdxElementMinimal) : Option CdxComponent :=
  match element.element_type with
  | "SpdxPackage" | "software_Package" | "SpdxFile" | "software_File" =>
    let cpe :=
      (element.external_identifier.bind fun ids =>
        ids.find? fun id => id.external_identifier_type = some "cpe23Type").bind
        fun id => id.identifier
    let hashes :=
      (element.verified_using.map fun verified =>
        verified.filterMap fun h =>
          h.algorithm.bind fun alg =>
            h.hash_value.map fun val =>
              { alg :=
                  match strLower alg with
                  | "sha256" | "sha-256" => "SHA-256"
                  | "sha1" | "sha-1" => "SHA-1"
                  | _ => strUpper alg
                content := val : CdxHash }).filter fun v => !v.isEmpty
    let scope := element.software_primary_purpose.map simpleScopeOf
    some
      { bom_ref := extract_bom_ref element.spdx_id
        component_type :=
          if element.element_type = "SpdxPackage" ∨
              element.element_type = "software_Package" then "library" else "file"
        name := element.name.getD "Unknown"
        version := element.version_info
        description := element.summary
        cpe := cpe
        purl := element.purl
        scope := scope
        hashes := hashes
        licenses := element.license_concluded.map fun expr =>
          [{ expression := some expr, license := none : CdxLicenseChoice }] }
  | "SpdxVulnerability" | "security_Vulnerability" => none
  | _ => none

/-- handle_jsonld_element (lines 441 to 481): the component written for one
JSON-LD software_Package or software_File entry. -/
def handle_jsonld_element (element : JsonLdElement) : CdxComponent :=
  { bom_ref := extract_bom_ref element.spdx_id
    component_type :=
      if element.element_type = "software_Package" then "library" else "file"
    name := element.name.getD "Unknown"
    version := element.software_package_version
    description := element.description.or element.summary
    cpe := element.extract_cpe
    purl := element.extract_purl
    scope := element.map_scope
    hashes := element.extract_hashes
    licenses := none }

/-- The dependencies section of pass_2_convert_and_write (lines 206 to 236):
for each index entry collect the DEPENDS_ON / dependsOn / contains targets
mapped through extract_bom_ref, and emit an entry only when non-empty.  The
index is modelled as an association list in iteration order. -/
def pass2_dependencies (index : List (String × List SpdxRelationshipMinimal)) :
    List CdxDependency :=
  index.filterMap fun kv =>
    let dependsOn := kv.2.filterMap fun rel =>
      if rel.relationship_type = "DEPENDS_ON" ∨ rel.relationship_type = "dependsOn" ∨
          rel.relationship_type = "contains" then
        some (extract_bom_ref rel.related_spdx_element)
      else none
    if dependsOn.isEmpty then none
    else some { dep_ref := extract_bom_ref kv.1, depends_on := dependsOn }

/-! ## Polymorphic SPDX input model

A decoded top-level entry of the SPDX input object, and a decoded entry of
the JSON-LD graph array.  Each graph value is dispatched on its type field;
the constructors mirror the disjoint classes of type strings the visitors
test for (Relationship / LifecycleScopedRelationship, element types,
security_Vulnerability, types starting security_Vex, anything else). -/

inductive GraphEntry where
  | rel (r : JsonLdRelationship)
  | element (e : JsonLdElement)
  | vuln (v : JsonLdVulnerability)
  | vex (x : JsonLdVexRelationship)
  | other (type_name : String)
deriving DecidableEq

inductive SpdxTopEntry where
  | elements (es : List SpdxElementMinimal)
  | relationships (rs : List SpdxRelationshipMinimal)
  | graph (gs : List GraphEntry)
  | otherKey (key : String)
deriving DecidableEq

/-- Whether a top-level entry is the graph key. -/
def SpdxTopEntry.isGraph : SpdxTopEntry → Bool
  | .graph _ => true
  | _ => false

/-! ## Pass 1 (SpdxPass1Visitor / JsonLdGraphStreamVisitor,
models_spdx.rs lines 460 to 600): both the relationships key and the graph
key feed the index; JSON-LD entries are expanded one per target. -/

/-- The minimal relationship records one graph entry contributes to the
index (JsonLdGraphStreamVisitor::visit_seq, lines 569 to 599). -/
def pass1GraphEntryRels : GraphEntry → List SpdxRelationshipMinimal
  | .rel r =>
    if r.relationship_type_name = "Relationship" ∨
        r.relationship_type_name = "LifecycleScopedRelationship" then
      r.to_ids.map fun target =>
        { spdx_element_id := r.from_id
          relationship_type := r.relationship_type
          related_spdx_element := target }
    else []
  | _ => []

/-- The stream of relationship records Pass 1 feeds to the index, in input
order (the index groups them by spdx_element_id as they arrive). -/
def pass1VisitMap : List SpdxTopEntry → List SpdxRelationshipMinimal
  | [] => []
  | entry :: rest =>
    let tail := pass1VisitMap rest
    match entry with
    | .relationships rs => rs ++ tail
    | .graph gs => (gs.map pass1GraphEntryRels).flatten ++ tail
    | _ => tail

/-! ## Pass 2 (SpdxPass2Visitor / SpdxElementStreamVisitor /
JsonLdGraphPass2Visitor, models_spdx.rs lines 602 to 756): both the elements
key and the graph key are converted to components. -/

/-- The component one Pass 2 graph entry produces
(JsonLdGraphPass2Visitor::visit_seq, lines 721 to 755): files are skipped in
packages_only mode, vulnerabilities and unknown types are skipped. -/
def pass2GraphEntryComponent (packages_only : Bool) : GraphEntry → Option CdxComponent
  | .element e =>
    if e.element_type = "software_File" ∧ packages_only then none
    else if e.element_type = "software_Package" ∨ e.element_type = "software_File" then
      some (handle_jsonld_element e)
    else none
  | _ => none

/-- The components Pass 2 writes, in emission order, for a decoded top-level
SPDX object (SpdxPass2Visitor::visit_map, lines 619 to 648). -/
def pass2VisitMap (packages_only : Bool) : List SpdxTopEntry → List CdxComponent
  | [] => []
  | entry :: rest =>
    let tail := pass2VisitMap packages_only rest
    match entry with
    | .elements es => es.filterMap handle_spdx_element ++ tail
    | .graph gs => gs.filterMap (pass2GraphEntryComponent packages_only) ++ tail
    | _ => tail

/-! ## Pass 3 (SpdxPass3VulnVisitor / JsonLdGraphPass3Visitor,
models_spdx.rs lines 758 to 911) -/

/-- First phase of JsonLdGraphPass3Visitor::visit_seq (lines 828 to 846):
collect the vulnerability records of the graph, in input order. -/
def pass3CollectVulns (gs : List GraphEntry) : List JsonLdVulnerability :=
  gs.filterMap fun g =>
    match g with
    | .vuln v => some v
    | _ => none

/-- First phase of JsonLdGraphPass3Visitor::visit_seq (lines 828 to 846):
collect the VEX assessment records of the graph, in input order. -/
def pass3CollectVexes (gs : List GraphEntry) : List JsonLdVexRelationship :=
  gs.filterMap fun g =>
    match g with
    | .vex x => some x
    | _ => none

/-- Second phase of JsonLdGraphPass3Visitor::visit_seq (lines 849 to 907):
the CDX vulnerability written for one collected vulnerability, or none when
no CVE id can be extracted. -/
def pass3EmitVuln (serial_number : String) (vexes : List JsonLdVexRelationship)
    (vuln : JsonLdVulnerability) : Option CdxVulnerability :=
  vuln.extract_cve_id.map fun cve_id =>
    let affects :=
      ((vexes.filter fun vex => vex.from_id = vuln.spdx_id).map
          fun vex => vex.to_ids).flatten.map
        fun spdx_id => serial_number ++ "#" ++ extract_bom_ref spdx_id
    let state :=
      ((vexes.find? fun vex => vex.from_id = vuln.spdx_id).map
        JsonLdVexRelationship.map_state).getD "not_affected"
    { id := cve_id
      source := some
        { name := "NVD"
          url := some ("https://nvd.nist.gov/vuln/detail/" ++ cve_id) }
      description := none
      analysis := some
        { state := state, detail := none, first_issued := none, last_updated := none }
      affects := some (affects.map fun ref_str => { bom_ref := ref_str }) }

/-- The vulnerabilities Pass 3 writes for one graph array. -/
def pass3ProcessGraph (serial_number : String) (gs : List GraphEntry) :
    List CdxVulnerability :=
  (pass3CollectVulns gs).filterMap (pass3EmitVuln serial_number (pass3CollectVexes gs))

/-- SpdxPass3VulnVisitor::visit_map (lines 772 to 791): only the graph key
is processed; every other top-level key, including elements, is skipped. -/
def pass3VisitMap (serial_number : String) : List SpdxTopEntry → List CdxVulnerability
  | [] => []
  | entry :: rest =>
    let tail := pass3VisitMap serial_number rest
    match entry with
    | .graph gs => pass3ProcessGraph serial_number gs ++ tail
    | _ => tail

/-! ## File handling around the CDX to SPDX conversion (lib.rs run, lines
168 to 203, and convert_cdx_to_spdx, converter_cdx_to_spdx.rs lines 25 to
119), modelled as its effect on the two files involved. -/

structure FsState where
  outputExists : Bool
  sideFileExists : Bool
deriving DecidableEq

/-- Abstract outcome of driving the streaming deserializer. -/
inductive ConvertOutcome where
  | success
  | decodeError
deriving DecidableEq

/-- convert_cdx_to_spdx creates the side file first (line 35); a decode
error is returned to the caller without removing any file. -/
def convert_cdx_to_spdx_fs (outcome : ConvertOutcome) (s : FsState) : FsState × Bool :=
  let s1 := { s with sideFileExists := true }
  match outcome with
  | .success => (s1, true)
  | .decodeError => (s1, false)

/-- The CdxToSpdx branch of run: the output file is created (lib.rs line
173), the converter runs, and the side file is removed only when the
converter returned successfully (lib.rs lines 199 to 202; an error
propagates out of run before the cleanup). -/
def run_cdx_fs (outcome : ConvertOutcome) : FsState :=
  let s0 : FsState := { outputExists := true, sideFileExists := false }
  let (s1, ok) := convert_cdx_to_spdx_fs outcome s0
  if ok then { s1 with sideFileExists := false } else s1

/-! ## Derived views used to state ordering properties -/

/-- Whether an emitted element is a converted component. -/
def SpdxOutItem.isPkg : SpdxOutItem → Bool
  | .pkg _ => true
  | .elem _ => false

/-- Whether every converted component precedes every other emitted element
(the components-before-vulnerabilities ordering of the elements array). -/
def componentsFirst (l : List SpdxOutItem) : Bool :=
  (l.dropWhile SpdxOutItem.isPkg).all fun i => !i.isPkg

/-- The elements one top-level CDX entry contributes to the output. -/
def cdxEntryElements : CdxTopEntry → List SpdxOutItem
  | .components cs => cs.map fun c => SpdxOutItem.pkg (handle_cdx_component c)
  | .vulnerabilities vs => vs.map fun v => SpdxOutItem.elem (handle_cdx_vulnerability v).1
  | _ => []

/-- The side-file relationships one top-level CDX entry contributes. -/
def cdxEntryRels : CdxTopEntry → List SpdxRelationship
  | .dependencies ds => (ds.map handle_cdx_dependency).flatten
  | .vulnerabilities vs => (vs.map fun v => (handle_cdx_vulnerability v).2).flatten
  | _ => []

/-! ## Concrete instances used by the witnesses and counterexamples -/

/-- A minimal simple-JSON SPDX package element. -/
def baseMinElem : SpdxElementMinimal :=
  { spdx_id := "SPDXRef-p"
    element_type := "SpdxPackage"
    name := some "P"
    version_info := none
    summary := none
    purl := none
    license_concluded := none
    external_identifier := none
    verified_using := none
    software_primary_purpose := none }

/-- A minimal JSON-LD SPDX package element. -/
def baseLdElem : JsonLdElement :=
  { element_type := "software_Package"
    spdx_id := "SPDXRef-g"
    name := some "G"
    software_package_version := none
    description := none
    summary := none
    software_primary_purpose := none
    external_identifier := none
    verified_using := none }

/-- A minimal CDX library component. -/
def baseComp : CdxComponent :=
  { bom_ref := "a"
    component_type := "library"
    name := "A"
    version := none
    purl := none
    cpe := none
    description := none
    hashes := none
    scope := none
    licenses := none }

/-- A minimal CDX vulnerability. -/
def baseVuln : CdxVulnerability :=
  { id := "CVE-2025-1234"
    source := none
    description := none
    analysis := none
    affects := none }

/-- A simple-JSON vulnerability element. -/
def vulnElemC2 : SpdxElementMinimal :=
  { baseMinElem with
    spdx_id := "SPDXRef-v"
    element_type := "SpdxVulnerability"
    name := some "CVE-1" }

/-- A simple-JSON SPDX document carrying one vulnerability element and one
AFFECTS relationship for it. -/
def docC2 : List SpdxTopEntry :=
  [SpdxTopEntry.elements [vulnElemC2],
   SpdxTopEntry.relationships
     [{ spdx_element_id := "SPDXRef-v", relationship_type := "AFFECTS",
        related_spdx_element := "SPDXRef-b" }]]

/-- A CDX document whose vulnerabilities key precedes its components key. -/
def docC6 : List CdxTopEntry :=
  [CdxTopEntry.vulnerabilities [baseVuln], CdxTopEntry.components [baseComp]]

/-- An SPDX document carrying both an elements key and a graph key. -/
def docC7 : List SpdxTopEntry :=
  [SpdxTopEntry.elements [baseMinElem], SpdxTopEntry.graph [GraphEntry.element baseLdElem]]

/-- A JSON-LD vulnerability whose CVE id comes from its spdxId URI and that
has no VEX assessment in scope. -/
def vulnC10 : JsonLdVulnerability :=
  { vuln_type := "security_Vulnerability"
    spdx_id := "https://spdx.example/vulnerability/CVE-2025-1234"
    external_identifier := none }

/-- A one-entry graph holding only the vulnerability above. -/
def graphC10 : List GraphEntry := [GraphEntry.vuln vulnC10]

/-! ## Theorems -/

/-- Helper: the emission loop of handle_cdx_dependency writes one
relationship per target, in order. -/
theorem handle_cdx_dependency_go_eq (dep : CdxDependency) (l : List String) :
    handle_cdx_dependency.go dep l = l.map fun target =>
      { spdx_element_id := "SPDXRef-" ++ dep.dep_ref
        relationship_type := RelationshipType.DependsOn
        related_spdx_element := "SPDXRef-" ++ target } := by
  induction l with
  | nil => rfl
  | cons t ts ih => simp [handle_cdx_dependency.go, ih]

/-- C1: for every CDX dependency record processed by the CDX to SPDX
converter, the side file receives exactly one relationship per dependsOn
target, in input order, each of the form (SPDXRef-ref, DEPENDS_ON,
SPDXRef-target). -/
theorem c1_dependency_relationship_order (dep : CdxDependency) (i : Nat)
    (h : i < dep.depends_on.length) :
    (handle_cdx_dependency dep).length = dep.depends_on.length ∧
    (handle_cdx_dependency dep)[i]? =
      some { spdx_element_id := "SPDXRef-" ++ dep.dep_ref
             relationship_type := RelationshipType.DependsOn
             related_spdx_element := "SPDXRef-" ++ dep.depends_on.get ⟨i, h⟩ } ∧
    RelationshipType.DependsOn.wireName = "DEPENDS_ON" := by
  unfold handle_cdx_dependency
  rw [handle_cdx_dependency_go_eq]
  refine ⟨by simp, ?_, rfl⟩
  simp [List.getElem?_map, List.getElem?_eq_getElem h]

/-- Witness for C1 at the dependency (a, [b, c]) and index 1. -/
theorem c1_witness :
    (handle_cdx_dependency { dep_ref := "a", depends_on := ["b", "c"] }).length =
      ({ dep_ref := "a", depends_on := ["b", "c"] : CdxDependency }).depends_on.length ∧
    (handle_cdx_dependency { dep_ref := "a", depends_on := ["b", "c"] })[1]? =
      some { spdx_element_id := "SPDXRef-" ++ "a"
             relationship_type := RelationshipType.DependsOn
             related_spdx_element :=
               "SPDXRef-" ++
                 ({ dep_ref := "a", depends_on := ["b", "c"] :
                    CdxDependency }).depends_on.get ⟨1, by decide⟩ } ∧
    RelationshipType.DependsOn.wireName = "DEPENDS_ON" :=
  c1_dependency_relationship_order { dep_ref := "a", depends_on := ["b", "c"] } 1 (by decide)

/-- C6 counterexample: on a document whose vulnerabilities key precedes its
components key, the emitted elements array places the converted
vulnerability before the converted component, so components do not always
precede vulnerabilities. -/
theorem c6_counterexample : componentsFirst (cdxVisitMap docC6).1 = false := by decide

/-- C6 amended: the elements array (and the relationship side file)
concatenate the per-key conversions in the order the keys appear in the
input document; components precede vulnerabilities exactly when the
components key comes first. -/
theorem c6_elements_follow_key_order (doc : List CdxTopEntry) :
    (cdxVisitMap doc).1 = (doc.map cdxEntryElements).flatten ∧
    (cdxVisitMap doc).2 = (doc.map cdxEntryRels).flatten := by
  induction doc with
  | nil => exact ⟨rfl, rfl⟩
  | cons e rest ih =>
    cases e <;> simp [cdxVisitMap, cdxEntryElements, cdxEntryRels, ih.1, ih.2]

/-- C7 counterexample: on a document carrying both an elements key and a
graph key, Pass 2 converts both arrays (two components are emitted, the
second one from the graph entry), so elements does not win. -/
theorem c7_counterexample :
    (pass2VisitMap false docC7).length = 2 ∧
    (pass2VisitMap false docC7)[1]? = some (handle_jsonld_element baseLdElem) := by
  exact ⟨by decide, by decide⟩

/-- C7 amended: when both an elements key and a graph key are present, both
arrays are converted, elements entries first and graph entries after, in
key order; neither suppresses the other. -/
theorem c7_both_arrays_converted (packages_only : Bool) (es : List SpdxElementMinimal)
    (gs : List GraphEntry) :
    pass2VisitMap packages_only [SpdxTopEntry.elements es, SpdxTopEntry.graph gs] =
      es.filterMap handle_spdx_element ++
        gs.filterMap (pass2GraphEntryComponent packages_only) := by
  simp [pass2VisitMap]

/-- C8 counterexample: on a fatal decode error the error propagates out of
run before any cleanup, leaving both the partial main output file and the
relationship side file in place, so neither is deleted. -/
theorem c8_counterexample :
    run_cdx_fs ConvertOutcome.decodeError =
      { outputExists := true, sideFileExists := true } := by
  exact rfl

/-- C8 amended: the temporary side file is unlinked only on success; on a
fatal decode error the partial main output and the side file both remain. -/
theorem c8_cleanup_behavior :
    run_cdx_fs ConvertOutcome.success =
      { outputExists := true, sideFileExists := false } ∧
    run_cdx_fs ConvertOutcome.decodeError =
      { outputExists := true, sideFileExists := true } := by
  exact ⟨rfl, rfl⟩

/-- C9: every dependency entry emitted by Pass 2 of the SPDX to CDX
converter has a non-empty dependsOn list; index entries whose collected
targets are empty produce no entry at all. -/
theorem c9_dependson_nonempty (index : List (String × List SpdxRelationshipMinimal))
    (d : CdxDependency) (h : d ∈ pass2_dependencies index) :
    d.depends_on ≠ [] := by
  simp only [pass2_dependencies, List.mem_filterMap] at h
  obtain ⟨kv, hmem, hkv⟩ := h
  split at hkv
  · simp at hkv
  · rename_i hne
    injection hkv with heq
    subst heq
    intro hc
    apply hne
    rw [List.isEmpty_iff]
    exact hc

/-- Witness for C9 at a one-entry index holding a single DEPENDS_ON edge. -/
theorem c9_witness :
    ({ dep_ref := "a", depends_on := ["b"] } : CdxDependency) ∈
      pass2_dependencies
        [("SPDXRef-a",
          [{ spdx_element_id := "SPDXRef-a", relationship_type := "DEPENDS_ON",
             related_spdx_element := "SPDXRef-b" }])] ∧
    ({ dep_ref := "a", depends_on := ["b"] } : CdxDependency).depends_on ≠ [] :=
  ⟨by decide,
   c9_dependson_nonempty
     [("SPDXRef-a",
       [{ spdx_element_id := "SPDXRef-a", relationship_type := "DEPENDS_ON",
          related_spdx_element := "SPDXRef-b" }])]
     { dep_ref := "a", depends_on := ["b"] } (by decide)⟩

/-- C2 counterexample: in simple-JSON mode a vulnerability element is not
emitted at all, even though the Pass 1 index does receive its AFFECTS
relationship: Pass 2 returns nothing for it and Pass 3 ignores every key
except the graph key, so the output vulnerabilities array stays empty. -/
theorem c2_counterexample :
    handle_spdx_element vulnElemC2 = none ∧
    pass3VisitMap "urn:uuid:S" docC2 = [] ∧
    pass1VisitMap docC2 =
      [{ spdx_element_id := "SPDXRef-v", relationship_type := "AFFECTS",
         related_spdx_element := "SPDXRef-b" }] := by
  exact ⟨by decide, by decide, by decide⟩

/-- C2 amended: in simple-JSON mode SpdxVulnerability elements are skipped:
Pass 2 emits nothing for them, and Pass 3 emits nothing for any document
without a graph key, so no CDX vulnerability is produced and the AFFECTS
index is never consulted. -/
theorem c2_simple_vulns_not_emitted (e : SpdxElementMinimal) (serial : String)
    (doc : List SpdxTopEntry)
    (he : e.element_type = "SpdxVulnerability")
    (hdoc : ∀ entry ∈ doc, entry.isGraph = false) :
    handle_spdx_element e = none ∧ pass3VisitMap serial doc = [] := by
  constructor
  · unfold handle_spdx_element
    split <;> simp_all
  · induction doc with
    | nil => rfl
    | cons entry rest ih =>
      have hrest : ∀ x ∈ rest, SpdxTopEntry.isGraph x = false :=
        fun x hx => hdoc x (List.mem_cons_of_mem _ hx)
      have hentry := hdoc entry (List.mem_cons_self _ _)
      cases entry <;> simp_all [pass3VisitMap, SpdxTopEntry.isGraph]

/-- Witness for C2 at the concrete vulnerability element and document. -/
theorem c2_witness :
    vulnElemC2.element_type = "SpdxVulnerability" ∧
    (∀ entry ∈ docC2, entry.isGraph = false) ∧
    (handle_spdx_element vulnElemC2 = none ∧ pass3VisitMap "urn:uuid:S" docC2 = []) :=
  ⟨by decide, by decide,
   c2_simple_vulns_not_emitted vulnElemC2 "urn:uuid:S" docC2 (by decide) (by decide)⟩

/-- C5 counterexample: the simple-JSON path maps the purpose source to the
scope required (not excluded), and the JSON-LD path maps the purpose
optional to no scope at all (not optional). -/
theorem c5_counterexample :
    (handle_spdx_element
        { baseMinElem with software_primary_purpose := some "source" }).map
      CdxComponent.scope = some (some "required") ∧
    (handle_jsonld_element
        { baseLdElem with software_primary_purpose := some "optional" }).scope = none := by
  exact ⟨by decide, by decide⟩

/-- C5 amended: install maps to required on both paths; optional maps to
optional on the simple-JSON path but to no scope on the JSON-LD path;
source and build map to excluded on the JSON-LD path but to required on the
simple-JSON path; every other purpose maps to required on the simple-JSON
path and to no scope on the JSON-LD path. -/
theorem c5_scope_tables (p q : String) (g : JsonLdElement)
    (hp1 : p ≠ "install") (hp2 : p ≠ "optional")
    (hgq : g.software_primary_purpose = some q)
    (hq1 : q ≠ "install") (hq2 : q ≠ "source") (hq3 : q ≠ "build") :
    simpleScopeOf p = "required" ∧
    g.map_scope = none ∧
    ((handle_spdx_element
        { baseMinElem with software_primary_purpose := some "install" }).map
      CdxComponent.scope = some (some "required")) ∧
    ((handle_spdx_element
        { baseMinElem with software_primary_purpose := some "optional" }).map
      CdxComponent.scope = some (some "optional")) ∧
    ((handle_spdx_element
        { baseMinElem with software_primary_purpose := some "source" }).map
      CdxComponent.scope = some (some "required")) ∧
    ((handle_spdx_element
        { baseMinElem with software_primary_purpose := some "build" }).map
      CdxComponent.scope = some (some "required")) ∧
    ((handle_jsonld_element
        { baseLdElem with software_primary_purpose := some "install" }).scope
      = some "required") ∧
    ((handle_jsonld_element
        { baseLdElem with software_primary_purpose := some "optional" }).scope = none) ∧
    ((handle_jsonld_element
        { baseLdElem with software_primary_purpose := some "source" }).scope
      = some "excluded") ∧
    ((handle_jsonld_element
        { baseLdElem with software_primary_purpose := some "build" }).scope
      = some "excluded") := by
  refine ⟨?_, ?_, by decide, by decide, by decide, by decide, by decide, by decide,
    by decide, by decide⟩
  · unfold simpleScopeOf
    split <;> simp_all
  · unfold JsonLdElement.map_scope
    rw [hgq]
    split <;> simp_all

/-- Witness for C5 at the purposes source (simple path) and optional
(JSON-LD path). -/
theorem c5_witness :
    simpleScopeOf "source" = "required" ∧
    ({ baseLdElem with software_primary_purpose := some "optional" } :
      JsonLdElement).map_scope = none :=
  ⟨(c5_scope_tables "source" "optional"
      { baseLdElem with software_primary_purpose := some "optional" }
      (by decide) (by decide) (by decide) (by decide) (by decide) (by decide)).1,
   (c5_scope_tables "source" "optional"
      { baseLdElem with software_primary_purpose := some "optional" }
      (by decide) (by decide) (by decide) (by decide) (by decide) (by decide)).2.1⟩

/-- Helper: outside the SHA256 / SHA1 table rows, the SPDX to CDX algorithm
conversion is plain uppercasing. -/
theorem spdxAlgToCdx_other (alg : String)
    (h1 : strUpper alg ≠ "SHA256") (h2 : strUpper alg ≠ "SHA1") :
    spdxAlgToCdx alg = strUpper alg := by
  unfold spdxAlgToCdx
  split <;> simp_all

/-- C3 counterexample: from_cdx_component only lowercases the CDX algorithm
spelling and keeps the hyphen, so SHA-256 becomes sha-256, not sha256. -/
theorem c3_counterexample :
    (SpdxPackage.from_cdx_component
        { baseComp with
          hashes := some [{ alg := "SHA-256", content := "deadbeef" }] }).verified_using =
      some [{ hash_type := "Hash", algorithm := some "sha-256",
              hash_value := some "deadbeef" }] ∧
    ("sha-256" : String) ≠ "sha256" := by
  exact ⟨by decide, by decide⟩

/-- C3 amended: the CDX to SPDX direction lowercases the algorithm name
without stripping hyphens (SHA-256 becomes sha-256); the SPDX to CDX
direction (extract_hashes) yields SHA-256 for sha256, SHA-1 for sha1, and
the plain uppercase form unchanged for every other algorithm name. -/
theorem c3_hash_spelling (alg content : String)
    (h1 : strUpper alg ≠ "SHA256") (h2 : strUpper alg ≠ "SHA1") :
    (SpdxPackage.from_cdx_component
        { baseComp with
          hashes := some [{ alg := "SHA-256", content := "deadbeef" }] }).verified_using =
      some [{ hash_type := "Hash", algorithm := some "sha-256",
              hash_value := some "deadbeef" }] ∧
    ({ baseMinElem with
        verified_using :=
          some [{ hash_type := "Hash", algorithm := some "sha256",
                  hash_value := some "x" }] }).extract_hashes =
      some [{ alg := "SHA-256", content := "x" }] ∧
    ({ baseMinElem with
        verified_using :=
          some [{ hash_type := "Hash", algorithm := some "sha1",
                  hash_value := some "y" }] }).extract_hashes =
      some [{ alg := "SHA-1", content := "y" }] ∧
    ({ baseMinElem with
        verified_using :=
          some [{ hash_type := "Hash", algorithm := some alg,
                  hash_value := some content }] }).extract_hashes =
      some [{ alg := strUpper alg, content := content }] := by
  refine ⟨by decide, by decide, by decide, ?_⟩
  simp [SpdxElementMinimal.extract_hashes, spdxAlgToCdx_other alg h1 h2]

/-- Witness for C3 at the algorithm MD5. -/
theorem c3_witness :
    ({ baseMinElem with
        verified_using :=
          some [{ hash_type := "Hash", algorithm := some "MD5",
                  hash_value := some "z" }] }).extract_hashes =
      some [{ alg := strUpper "MD5", content := "z" }] :=
  (c3_hash_spelling "MD5" "z" (by decide) (by decide)).2.2.2

/-- Helper: xor64 always lands below 2 ^ 64. -/
theorem xor64_lt (a b : Nat) : xor64 a b < M64 := by
  unfold xor64
  exact Nat.mod_lt _ (by decide)

/-- Helper: the hash value is a u64. -/
theorem sipHash13_lt (msg : List Nat) : sipHash13 msg < M64 := by
  unfold sipHash13
  exact xor64_lt _ _

/-- Helper: the hex accumulator adds at most fuel digits. -/
theorem natToHexAux_length_le (fuel : Nat) :
    ∀ n acc, (natToHexAux fuel n acc).length ≤ fuel + acc.length := by
  induction fuel with
  | zero => intro n acc; simp [natToHexAux]
  | succ f ih =>
    intro n acc
    unfold natToHexAux
    split
    · omega
    · have := ih (n / 16) (hexDigitChar (n % 16) :: acc)
      simp only [List.length_cons] at this
      omega

/-- Helper: the hex accumulator never drops digits. -/
theorem natToHexAux_length_ge (fuel : Nat) :
    ∀ n acc, acc.length ≤ (natToHexAux fuel n acc).length := by
  induction fuel with
  | zero => intro n acc; simp [natToHexAux]
  | succ f ih =>
    intro n acc
    unfold natToHexAux
    split
    · omega
    · have := ih (n / 16) (hexDigitChar (n % 16) :: acc)
      simp only [List.length_cons] at this
      omega

/-- Helper: a non-zero value yields at least one digit. -/
theorem natToHexAux_pos (fuel n : Nat) (acc : List Char) (hn : n ≠ 0) (hf : 0 < fuel) :
    1 ≤ (natToHexAux fuel n acc).length := by
  cases fuel with
  | zero => omega
  | succ f =>
    unfold natToHexAux
    split
    · omega
    · have := natToHexAux_length_ge f (n / 16) (hexDigitChar (n % 16) :: acc)
      simp only [List.length_cons] at this
      omega

/-- Helper: the rendered hex of any value has between 1 and 16 digits. -/
theorem natToHex_length_bounds (n : Nat) :
    1 ≤ (natToHex n).length ∧ (natToHex n).length ≤ 16 := by
  unfold natToHex
  split
  · exact ⟨by decide, by decide⟩
  · rename_i hn
    have hmk : (String.mk (natToHexAux 16 n [])).length = (natToHexAux 16 n []).length := rfl
    constructor
    · rw [hmk]
      exact natToHexAux_pos 16 n [] hn (by decide)
    · rw [hmk]
      have := natToHexAux_length_le 16 n []
      simpa using this

/-- C4 counterexample: the hex suffix is emitted without zero padding, so
the URI https://ex/pkg/libfoo7, whose 64-bit hash has a leading zero
nibble, produces a bom-ref with a 15-digit hex suffix (23 characters in
all) instead of the 16 hex digits (24 characters) the claim requires. -/
theorem c4_counterexample :
    extract_bom_ref "https://ex/pkg/libfoo7" = "libfoo7-f12f67c55d7b1f5" ∧
    (extract_bom_ref "https://ex/pkg/libfoo7").length = 23 := by
  exact ⟨by decide, by decide⟩

/-- C4 amended: for URIs the result is the name part (the final path
segment when non-empty and containing a letter, else element), a hyphen,
and the lowercase hex digits of the stable 64-bit hash of the full string,
without zero padding (between 1 and 16 digits); for every other input the
result is the input with a leading SPDXRef- marker stripped. -/
theorem c4_bom_ref_structure (s t : String)
    (hs : (hasInitial "http://".data s.data || hasInitial "https://".data s.data) = true)
    (ht : (hasInitial "http://".data t.data || hasInitial "https://".data t.data) = false) :
    extract_bom_ref s = String.mk (uriNamePart s) ++ "-" ++ natToHex (defaultHashStr s) ∧
    defaultHashStr s < M64 ∧
    1 ≤ (natToHex (defaultHashStr s)).length ∧
    (natToHex (defaultHashStr s)).length ≤ 16 ∧
    extract_bom_ref t = String.mk (stripInitial "SPDXRef-".data t.data) := by
  refine ⟨?_, ?_, (natToHex_length_bounds _).1, (natToHex_length_bounds _).2, ?_⟩
  · simp [extract_bom_ref, hs]
  · unfold defaultHashStr
    exact sipHash13_lt _
  · simp [extract_bom_ref, ht]

/-- Witness for C4 at a JSON-LD URI and a simple SPDXRef id. -/
theorem c4_witness :
    extract_bom_ref "https://ex/pkg/libfoo" =
      String.mk (uriNamePart "https://ex/pkg/libfoo") ++ "-" ++
        natToHex (defaultHashStr "https://ex/pkg/libfoo") ∧
    defaultHashStr "https://ex/pkg/libfoo" < M64 ∧
    1 ≤ (natToHex (defaultHashStr "https://ex/pkg/libfoo")).length ∧
    (natToHex (defaultHashStr "https://ex/pkg/libfoo")).length ≤ 16 ∧
    extract_bom_ref "SPDXRef-abc" =
      String.mk (stripInitial "SPDXRef-".data "SPDXRef-abc".data) :=
  c4_bom_ref_structure "https://ex/pkg/libfoo" "SPDXRef-abc" (by decide) (by decide)

/-- Helper: a vulnerability entry of the graph is collected by Pass 3. -/
theorem mem_pass3CollectVulns {gs : List GraphEntry} {v : JsonLdVulnerability}
    (h : GraphEntry.vuln v ∈ gs) : v ∈ pass3CollectVulns gs :=
  List.mem_filterMap.mpr ⟨GraphEntry.vuln v, h, rfl⟩

/-- Helper: every collected VEX record comes from a graph entry. -/
theorem mem_pass3CollectVexes {gs : List GraphEntry} {x : JsonLdVexRelationship}
    (h : x ∈ pass3CollectVexes gs) : GraphEntry.vex x ∈ gs := by
  obtain ⟨g, hg, hgx⟩ := List.mem_filterMap.mp h
  cases g <;> simp_all

/-- C10: in Pass 3 over a JSON-LD graph, a vulnerability with an
extractable CVE id but no VEX relationship whose from field matches its
spdxId is still emitted, with an empty affects list and analysis state
not_affected. -/
theorem c10_vuln_without_vex (serial : String) (gs : List GraphEntry)
    (v : JsonLdVulnerability) (cve : String)
    (hmem : GraphEntry.vuln v ∈ gs)
    (hcve : v.extract_cve_id = some cve)
    (hnovex : ∀ x : JsonLdVexRelationship, GraphEntry.vex x ∈ gs → x.from_id ≠ v.spdx_id) :
    { id := cve
      source := some { name := "NVD", url := some ("https://nvd.nist.gov/vuln/detail/" ++ cve) }
      description := none
      analysis := some { state := "not_affected", detail := none, first_issued := none, last_updated := none }
      affects := some [] } ∈ pass3ProcessGraph serial gs := by
  unfold pass3ProcessGraph
  apply List.mem_filterMap.mpr
  refine ⟨v, mem_pass3CollectVulns hmem, ?_⟩
  unfold pass3EmitVuln
  rw [hcve]
  have hfilter :
      (pass3CollectVexes gs).filter (fun vex => vex.from_id = v.spdx_id) = [] := by
    apply List.filter_eq_nil_iff.mpr
    intro x hx
    simp only [decide_eq_true_eq]
    exact hnovex x (mem_pass3CollectVexes hx)
  have hfind :
      (pass3CollectVexes gs).find? (fun vex => vex.from_id = v.spdx_id) = none := by
    apply List.find?_eq_none.mpr
    intro x hx
    simp only [decide_eq_true_eq]
    exact hnovex x (mem_pass3CollectVexes hx)
  simp [hfilter, hfind]

/-- Witness for C10 at a one-vulnerability graph with no VEX records. -/
theorem c10_witness :
    GraphEntry.vuln vulnC10 ∈ graphC10 ∧
    vulnC10.extract_cve_id = some "CVE-2025-1234" ∧
    ({ id := "CVE-2025-1234"
       source := some { name := "NVD", url := some ("https://nvd.nist.gov/vuln/detail/" ++ "CVE-2025-1234") }
       description := none
       analysis := some { state := "not_affected", detail := none, first_issued := none, last_updated := none }
       affects := some [] } : CdxVulnerability) ∈
      pass3ProcessGraph "urn:uuid:S" graphC10 :=
  ⟨by decide, by decide,
   c10_vuln_without_vex "urn:uuid:S" graphC10 vulnC10 "CVE-2025-1234" (by decide) (by decide)
     (fun x hx => by simp [graphC10] at hx)⟩
